import Mathlib

/-!
Shallow embedding of the two scripts of the vtu-vtk repository:
`simple_test_server.py` (a mock ParaViewWeb server answering JSON-RPC-style
messages over a websocket) and `paraview_server.py` (the real server protocol
class whose handlers wrap calls into the ParaView library).

JSON values are modelled by the inductive `JVal`; a Python dict obtained from
`json.loads` is a `JVal.jobj` association list with unique keys, and
`List.lookup` is dict lookup.  Python exceptions are modelled by
`Except String`, the string being `str(e)`.  Calls into external libraries
(websockets, paraview.simple) are modelled by environment records whose fields
give each call's outcome.
-/

namespace VtuVtk

/-- A parsed JSON value, as produced by Python `json.loads`. -/
inductive JVal where
  | null : JVal
  | jbool : Bool → JVal
  | jnum : ℚ → JVal
  | jstr : String → JVal
  | jarr : List JVal → JVal
  | jobj : List (String × JVal) → JVal

/-- Python `==` between a parsed JSON value and a string literal: true exactly
when the value is that string (no other JSON value compares equal to a str). -/
def JVal.eqStr : JVal → String → Bool
  | .jstr s, t => s == t
  | _, _ => false

/-- Python `str` of a number: integers print without a fractional part. -/
def pyNumStr (q : ℚ) : String :=
  if q.den = 1 then toString q.num else toString q

mutual

/-- Python `repr` of a parsed JSON value (used by `str` inside containers). -/
def pyRepr : JVal → String
  | .null => "None"
  | .jbool true => "True"
  | .jbool false => "False"
  | .jnum q => pyNumStr q
  | .jstr s => "'" ++ s ++ "'"
  | .jarr items => "[" ++ String.intercalate ", " (pyReprList items) ++ "]"
  | .jobj fields => "\x7b" ++ String.intercalate ", " (pyReprFields fields) ++ "\x7d"

/-- Python `repr` of each element of a list. -/
def pyReprList : List JVal → List String
  | [] => []
  | v :: vs => pyRepr v :: pyReprList vs

/-- Python `repr` of each `key: value` entry of a dict. -/
def pyReprFields : List (String × JVal) → List String
  | [] => []
  | (k, v) :: vs => ("'" ++ k ++ "': " ++ pyRepr v) :: pyReprFields vs

end

/-- Python `str` of a parsed JSON value (as used in an f-string). -/
def pyStr : JVal → String
  | .jstr s => s
  | v => pyRepr v

/-- Python `d.get(key, default)` on a dict `d`. -/
def pyGet (fields : List (String × JVal)) (key : String) (default : JVal) : JVal :=
  (List.lookup key fields).getD default

/-- The outcome of `json.loads` on an incoming websocket message: either the
message is not valid JSON (`json.loads` raises) or it parses to a value. -/
inductive PyMsg where
  | invalid : PyMsg
  | parsed : JVal → PyMsg

namespace MockParaViewServer

/-- The `try:` body of `MockParaViewServer.process_message`
(src/simple_test_server.py lines 38-84).  `data.get` on a non-dict raises
`AttributeError`; the four `if/elif/else` branches each return a
`json.dumps` literal. -/
def processBody (msg : PyMsg) : Except String JVal :=
  match msg with
  | .invalid => throw "Expecting value: line 1 column 1 (char 0)"
  | .parsed data =>
    match data with
    | .jobj fields =>
      let method := pyGet fields "method" (.jstr "")
      if method.eqStr "vtk.initialize" then
        pure (.jobj [("id", pyGet fields "id" .null),
          ("result", .jobj [("status", .jstr "success"),
            ("message", .jstr "Mock ParaView initialized"),
            ("data_arrays", .jarr [.jstr "Temperature", .jstr "Pressure", .jstr "Velocity"]),
            ("bounds", .jarr [.jnum (-100), .jnum 100, .jnum (-50), .jnum 50, .jnum (-75), .jnum 75]),
            ("points", .jnum 1234567),
            ("cells", .jnum 987654)])])
      else if method.eqStr "vtk.apply_color_map" then
        match pyGet fields "params" (.jobj []) with
        | .jobj params =>
          pure (.jobj [("id", pyGet fields "id" .null),
            ("result", .jobj [("status", .jstr "success"),
              ("message", .jstr ("Applied color map to " ++
                pyStr (pyGet params "array_name" (.jstr "unknown"))))])])
        | p => throw ("'" ++ pyRepr p ++ "' object has no attribute 'get'")
      else if method.eqStr "vtk.generate_contours" then
        pure (.jobj [("id", pyGet fields "id" .null),
          ("result", .jobj [("status", .jstr "success"),
            ("message", .jstr "Generated 5 contours"),
            ("contour_values", .jarr [.jnum 10, .jnum 20, .jnum 30, .jnum 40, .jnum 50])])])
      else
        pure (.jobj [("id", pyGet fields "id" .null),
          ("result", .jobj [("status", .jstr "success"),
            ("message", .jstr ("Mock response for " ++ pyStr method))])])
    | d => throw ("'" ++ pyRepr d ++ "' object has no attribute 'get'")

/-- `MockParaViewServer.process_message` (src/simple_test_server.py lines
36-91).  On an exception from the body, the `except` block builds an error
response from `data.get('id', 0)`: if `json.loads` itself raised, the local
`data` was never assigned and the handler raises `UnboundLocalError`; if
`data` is bound to a non-dict, `data.get` raises `AttributeError`; otherwise
the error JSON is returned. -/
def process_message (msg : PyMsg) : Except String JVal :=
  match processBody msg with
  | .ok response => .ok response
  | .error e =>
    match msg with
    | .invalid =>
      throw "local variable 'data' referenced before assignment"
    | .parsed data =>
      match data with
      | .jobj fields =>
        .ok (.jobj [("id", pyGet fields "id" (.jnum 0)),
          ("error", .jobj [("message", .jstr e)])])
      | d => throw ("'" ++ pyRepr d ++ "' object has no attribute 'get'")

/-- The per-connection state of `MockParaViewServer`: its only instance
attribute is the set of connected websocket clients (modelled by their ids). -/
structure ServerState where
  connected_clients : List ℕ

/-- `process_message` as invoked on the server object: its body never reads
`self` (apart from the logger), so the state is passed but unused. -/
def process_message_on (_st : ServerState) (msg : PyMsg) : Except String JVal :=
  process_message msg

end MockParaViewServer

namespace VtkVisualizationProtocol

/-- One entry of `self.data_arrays` as built by `initialize_visualization`
(src/paraview_server.py lines 82-91): the array's name, its component range
`(min, max)` and its number of components. -/
structure DataArrayInfo where
  name : String
  rangeLo : ℚ
  rangeHi : ℚ
  components : ℕ

/-- The instance attributes of `VtkVisualizationProtocol` set in `__init__`
(src/paraview_server.py lines 41-49).  Proxy-valued attributes (`view`,
`reader`, `current_representation`, `contour_filter`) are modelled by their
truthiness: `true` when a proxy has been assigned, `false` for `None`. -/
structure State where
  view : Bool
  reader : Bool
  current_representation : Bool
  contour_filter : Bool
  data_arrays : List DataArrayInfo

/-- The state after `__init__`: every proxy is `None` and `data_arrays` is
empty. -/
def initState : State :=
  { view := false, reader := false, current_representation := false,
    contour_filter := false, data_arrays := [] }

/-- The method names bound by the `@pv_wslink.register(...)` decorators on the
four handler methods of `VtkVisualizationProtocol` (src/paraview_server.py
lines 51, 120, 168, 217); these are the only registrations in the script. -/
def registeredMethods : List String :=
  ["vtk.initialize", "vtk.apply_color_map", "vtk.generate_contours", "vtk.export_image"]

/-- The `data_arrays` entry serialized into the `initialize_visualization`
response: a dict with `name`, `range` and `components`. -/
def dataArrayJson (a : DataArrayInfo) : JVal :=
  .jobj [("name", .jstr a.name),
    ("range", .jarr [.jnum a.rangeLo, .jnum a.rangeHi]),
    ("components", .jnum a.components)]

/-- Outcomes of the external calls made by `initialize_visualization`:
`simple.CreateView` plus view setup, the two `os.path.exists` checks, the
`LegacyVTKReader` construction, `simple.Show` plus representation setup,
reading the data information (arrays, bounds, point and cell counts), and
`ResetCamera`/`Render`. -/
structure InitEnv where
  create_view : Except String Unit
  file_in_public : Bool
  file_in_cwd : Bool
  load_reader : Except String Unit
  show_reader : Except String Unit
  data_info : Except String (List DataArrayInfo × List ℚ × ℤ × ℤ)
  render : Except String Unit

/-- The `try:` body of `initialize_visualization` (src/paraview_server.py
lines 54-111).  An exception carries the state as mutated so far. -/
def initBody (st : State) (env : InitEnv) : Except (String × State) (JVal × State) :=
  match env.create_view with
  | .error e => .error (e, st)
  | .ok () =>
    let st1 := { st with view := true }
    let path := if env.file_in_public then "public/Topology.vtk" else "Topology.vtk"
    let found := if env.file_in_public then true else env.file_in_cwd
    if found then
      match env.load_reader with
      | .error e => .error (e, st1)
      | .ok () =>
        let st2 := { st1 with reader := true }
        match env.show_reader with
        | .error e => .error (e, st2)
        | .ok () =>
          let st3 := { st2 with current_representation := true }
          match env.data_info with
          | .error e => .error (e, st3)
          | .ok (arrays, bounds, points, cells) =>
            let st4 := { st3 with data_arrays := arrays }
            match env.render with
            | .error e => .error (e, st4)
            | .ok () =>
              .ok (.jobj [("status", .jstr "success"),
                ("message", .jstr "ParaView initialized successfully"),
                ("data_arrays", .jarr (arrays.map dataArrayJson)),
                ("bounds", .jarr (bounds.map JVal.jnum)),
                ("points", .jnum points),
                ("cells", .jnum cells)], st4)
    else
      .ok (.jobj [("status", .jstr "error"),
        ("message", .jstr ("VTK file not found: " ++ path))], st1)

/-- `initialize_visualization` (src/paraview_server.py lines 51-118): the
body wrapped in `try/except Exception`, the handler returning an error dict. -/
def initialize_visualization (st : State) (env : InitEnv) : JVal × State :=
  match initBody st env with
  | .ok r => r
  | .error (e, st') =>
    (.jobj [("status", .jstr "error"),
      ("message", .jstr ("Initialization failed: " ++ e))], st')

/-- The `color_map_presets` dict literal of `apply_color_map`
(src/paraview_server.py lines 136-145). -/
def color_map_presets : List (String × String) :=
  [("Cool to Warm", "Cool to Warm"),
   ("Blue to Red Rainbow", "Blue to Red Rainbow"),
   ("Viridis", "Viridis"),
   ("Plasma", "Plasma"),
   ("Inferno", "Inferno"),
   ("Hot", "Hot"),
   ("Jet", "jet"),
   ("Grayscale", "Grayscale")]

/-- `color_map_presets.get(color_map_name, 'Cool to Warm')`
(src/paraview_server.py line 147). -/
def presetFor (color_map_name : String) : String :=
  (List.lookup color_map_name color_map_presets).getD "Cool to Warm"

/-- Outcomes of the external calls made by `apply_color_map`:
`simple.ColorBy`, `simple.GetColorTransferFunction`, `ApplyPreset` (which
receives the chosen preset name), `simple.GetScalarBar` plus color-bar setup,
and `simple.Render`. -/
structure ColorEnv where
  color_by : Except String Unit
  get_color_tf : Except String Unit
  apply_preset : String → Except String Unit
  scalar_bar : Except String Unit
  render : Except String Unit

/-- The `try:` body of `apply_color_map` (src/paraview_server.py lines
123-162).  No instance attribute is assigned, so no state is threaded. -/
def applyColorMapBody (st : State) (env : ColorEnv)
    (array_name color_map_name : String) : Except String JVal :=
  if !st.current_representation || array_name == "" then
    .ok (.jobj [("status", .jstr "error"),
      ("message", .jstr "No valid representation or array")])
  else do
    let () ← env.color_by
    let () ← env.get_color_tf
    let () ← env.apply_preset (presetFor color_map_name)
    let () ← env.scalar_bar
    let () ← env.render
    .ok (.jobj [("status", .jstr "success"),
      ("message", .jstr ("Applied " ++ color_map_name ++ " color map to " ++ array_name))])

/-- `apply_color_map` (src/paraview_server.py lines 120-166): the body
wrapped in `try/except Exception`. -/
def apply_color_map (st : State) (env : ColorEnv)
    (array_name color_map_name : String) : JVal :=
  match applyColorMapBody st env array_name color_map_name with
  | .ok r => r
  | .error e =>
    .jobj [("status", .jstr "error"),
      ("message", .jstr ("Color mapping failed: " ++ e))]

/-- Outcomes of the external calls made by `generate_contours`:
`simple.Contour` plus `ContourBy` assignment, the `Isosurfaces` assignment,
`simple.Show` plus representation setup, and `simple.Render`. -/
structure ContourEnv where
  contour : Except String Unit
  set_isosurfaces : Except String Unit
  show_contours : Except String Unit
  render : Except String Unit

/-- Floor of the base-2 logarithm of a natural number, by structural
recursion on a fuel bound (`n` halvings always suffice), so that it reduces
definitionally in the kernel. -/
def natLog2Aux : ℕ → ℕ → ℕ
  | 0, _ => 0
  | fuel + 1, n => if 2 ≤ n then natLog2Aux fuel (n / 2) + 1 else 0

/-- Floor of the base-2 logarithm of a natural number (0 for 0 and 1). -/
def natLog2 (n : ℕ) : ℕ := natLog2Aux n n

/-- The floor of the base-2 logarithm of a positive rational, computed from
the logarithms of numerator and denominator. -/
def qLog2 (q : ℚ) : ℤ :=
  let k : ℤ := (natLog2 q.num.toNat : ℤ) - (natLog2 q.den : ℤ)
  if (2 : ℚ) ^ k ≤ q then k else k - 1

/-- Rounding a rational to the nearest integer, ties to even. -/
def roundHalfEven (q : ℚ) : ℤ :=
  let f := ⌊q⌋
  let r := q - (f : ℚ)
  if r < 1 / 2 then f
  else if 1 / 2 < r then f + 1
  else if f % 2 = 0 then f else f + 1

/-- The IEEE-754 binary64 value nearest to an exact rational (round to
nearest, ties to even): the result CPython stores for each float operation.
Numbers below the normal range round at the fixed subnormal scale
`2 ^ (-1074)`.  Magnitudes at or beyond `2 ^ 1024`, where Python overflows
to `inf`, are not reached by any statement below and are left finite. -/
def roundDouble (q : ℚ) : ℚ :=
  if q = 0 then 0
  else
    let s : ℚ := if 0 < q then 1 else -1
    let e : ℤ := max (qLog2 |q| - 52) (-1074)
    s * (roundHalfEven (|q| / 2 ^ e) : ℚ) * 2 ^ e

/-- CPython float addition: the correctly rounded exact sum. -/
def fadd (x y : ℚ) : ℚ := roundDouble (x + y)

/-- CPython float subtraction: the correctly rounded exact difference. -/
def fsub (x y : ℚ) : ℚ := roundDouble (x - y)

/-- CPython float multiplication: the correctly rounded exact product. -/
def fmul (x y : ℚ) : ℚ := roundDouble (x * y)

/-- CPython float division: the correctly rounded exact quotient. -/
def fdiv (x y : ℚ) : ℚ := roundDouble (x / y)

/-- CPython conversion of an `int` operand to a float. -/
def intToDouble (n : ℤ) : ℚ := roundDouble (n : ℚ)

/-- The `step` of src/paraview_server.py line 193:
`(max_val - min_val) / (num_contours + 1)` in double arithmetic, the
`int` divisor converted to a double. -/
def contourStep (min_val max_val : ℚ) (num_contours : ℤ) : ℚ :=
  fdiv (fsub max_val min_val) (intToDouble (num_contours + 1))

/-- The contour-value list of src/paraview_server.py lines 192-194:
`[min_val + step * (i + 1) for i in range(num_contours)]`, each value
computed in IEEE binary64 arithmetic as CPython does. -/
def contourValuesList (min_val max_val : ℚ) (num_contours : ℤ) : List ℚ :=
  (List.range num_contours.toNat).map
    (fun (i : ℕ) => fadd min_val
      (fmul (contourStep min_val max_val num_contours) (intToDouble ((i : ℤ) + 1))))

/-- The `try:` body of `generate_contours` (src/paraview_server.py lines
171-211).  The `for`/`break` search over `self.data_arrays` is the first
match by name; `num_contours == -1` makes the `step` division raise
`ZeroDivisionError`. -/
def generateContoursBody (st : State) (env : ContourEnv)
    (array_name : String) (num_contours : ℤ) : Except (String × State) (JVal × State) :=
  if !st.reader || array_name == "" then
    .ok (.jobj [("status", .jstr "error"),
      ("message", .jstr "No valid data or array")], st)
  else
    match env.contour with
    | .error e => .error (e, st)
    | .ok () =>
      let st1 := { st with contour_filter := true }
      match st.data_arrays.find? (fun a => a.name == array_name) with
      | none =>
        .ok (.jobj [("status", .jstr "error"),
          ("message", .jstr ("Array " ++ array_name ++ " not found"))], st1)
      | some arr =>
        if num_contours + 1 = 0 then
          .error ("float division by zero", st1)
        else
          let values := contourValuesList arr.rangeLo arr.rangeHi num_contours
          match env.set_isosurfaces with
          | .error e => .error (e, st1)
          | .ok () =>
            match env.show_contours with
            | .error e => .error (e, st1)
            | .ok () =>
              match env.render with
              | .error e => .error (e, st1)
              | .ok () =>
                .ok (.jobj [("status", .jstr "success"),
                  ("message", .jstr ("Generated " ++ toString num_contours ++ " contours")),
                  ("contour_values", .jarr (values.map JVal.jnum))], st1)

/-- `generate_contours` (src/paraview_server.py lines 168-215): the body
wrapped in `try/except Exception`. -/
def generate_contours (st : State) (env : ContourEnv)
    (array_name : String) (num_contours : ℤ) : JVal × State :=
  match generateContoursBody st env array_name num_contours with
  | .ok r => r
  | .error (e, st') =>
    (.jobj [("status", .jstr "error"),
      ("message", .jstr ("Contour generation failed: " ++ e))], st')

/-- Outcomes of the external calls made by `export_image`: the `ViewSize`
assignment and `simple.SaveScreenshot`. -/
structure ExportEnv where
  set_view_size : Except String Unit
  save_screenshot : Except String Unit

/-- The `try:` body of `export_image` (src/paraview_server.py lines
220-236). -/
def exportImageBody (st : State) (env : ExportEnv)
    (filename : String) : Except String JVal :=
  if !st.view then
    .ok (.jobj [("status", .jstr "error"), ("message", .jstr "No valid view")])
  else do
    let () ← env.set_view_size
    let () ← env.save_screenshot
    .ok (.jobj [("status", .jstr "success"),
      ("message", .jstr ("Image exported: " ++ filename)),
      ("filename", .jstr filename)])

/-- `export_image` (src/paraview_server.py lines 217-240): the body wrapped
in `try/except Exception`. -/
def export_image (st : State) (env : ExportEnv) (filename : String) : JVal :=
  match exportImageBody st env filename with
  | .ok r => r
  | .error e =>
    .jobj [("status", .jstr "error"),
      ("message", .jstr ("Image export failed: " ++ e))]

end VtkVisualizationProtocol

/-! Observers used to state properties of responses. -/

/-- Look up a key of a JSON object (`none` on a non-object). -/
def getField (v : JVal) (key : String) : Option JVal :=
  match v with
  | .jobj fields => List.lookup key fields
  | _ => none

/-- Whether a JSON object has a string value under `key`. -/
def isStrField (v : JVal) (key : String) : Bool :=
  match getField v key with
  | some (.jstr _) => true
  | _ => false

/-- The response schema of the mock: an object with an `id` key and exactly
one of a `result` key (an object with string `status` and `message` fields)
or an `error` key (an object with a string `message` field). -/
def mockResponseSchema (v : JVal) : Bool :=
  (getField v "id").isSome &&
  (match getField v "result", getField v "error" with
   | some r, none => isStrField r "status" && isStrField r "message"
   | none, some e => isStrField e "message"
   | _, _ => false)

/-- Whether a handler return value is a dict with a `status` key equal to
`success` or `error` and a string `message` key. -/
def statusMessageOk (v : JVal) : Bool :=
  (match getField v "status" with
   | some (.jstr s) => s == "success" || s == "error"
   | _ => false) &&
  isStrField v "message"

/-- The `result.message` string of a returned response, when present. -/
def respResultMessage (r : Except String JVal) : Option String :=
  match r with
  | .ok v =>
    match getField v "result" with
    | some rv =>
      match getField rv "message" with
      | some (.jstr s) => some s
      | _ => none
    | none => none
  | .error _ => none

/-! Theorems. -/

/-- Every `Except.ok` result of the mock's `try:` body is an object holding
the request's `id` (default `null`) and a `result` object whose first two
fields are `status: success` and a string `message`. -/
theorem processBody_ok_shape (fields : List (String × JVal)) (resp : JVal)
    (h : MockParaViewServer.processBody (.parsed (.jobj fields)) = .ok resp) :
    ∃ m rest, resp = .jobj [("id", pyGet fields "id" .null),
      ("result", .jobj (("status", .jstr "success") ::
        ("message", .jstr m) :: rest))] := by
  simp only [MockParaViewServer.processBody] at h
  split at h
  · cases h
    exact ⟨_, _, rfl⟩
  · split at h
    · split at h
      · cases h
        exact ⟨_, _, rfl⟩
      · cases h
    · split at h
      · cases h
        exact ⟨_, _, rfl⟩
      · cases h
        exact ⟨_, _, rfl⟩

/-- C2: the mock's `process_message` is claimed to turn every exception
raised during handling into an error response; but on a message that is not
valid JSON the `except` block evaluates `data.get('id', 0)` while the local
`data` was never assigned, so `process_message` itself raises
`UnboundLocalError` instead of returning a response. -/
theorem mock_invalid_json_raises :
    MockParaViewServer.process_message PyMsg.invalid =
      Except.error "local variable 'data' referenced before assignment" := rfl

/-- C6: the mock's `process_message` reads nothing from the server object, so
its response is a function of the single incoming message alone, identical
across server states (in particular across different sets of previously
connected clients). -/
theorem mock_process_message_stateless
    (s₁ s₂ : MockParaViewServer.ServerState) (msg : PyMsg) :
    MockParaViewServer.process_message_on s₁ msg =
        MockParaViewServer.process_message msg ∧
      MockParaViewServer.process_message_on s₁ msg =
        MockParaViewServer.process_message_on s₂ msg :=
  ⟨rfl, rfl⟩

/-- C1 counterexample: a request whose method (`bogus`) is none of the four
advertised names is still answered by the mock's catch-all branch with a
canned success result. -/
theorem mock_unknown_method_gets_success :
    MockParaViewServer.process_message (.parsed (.jobj
      [("method", .jstr "bogus"), ("id", .jnum 1)])) =
      .ok (.jobj [("id", .jnum 1),
        ("result", .jobj [("status", .jstr "success"),
          ("message", .jstr "Mock response for bogus")])]) := rfl

/-- C3: whenever the mock returns a response, its `id` field is the `id`
field of the request; a request without an `id` gets `null` in a success
response and `0` in an error response. -/
theorem mock_echoes_request_id (fields : List (String × JVal)) (resp : JVal)
    (h : MockParaViewServer.process_message (.parsed (.jobj fields)) = .ok resp) :
    getField resp "id" = some (if (getField resp "error").isSome
      then pyGet fields "id" (.jnum 0) else pyGet fields "id" .null) := by
  cases hb : MockParaViewServer.processBody (.parsed (.jobj fields)) with
  | ok r =>
    have hpm : MockParaViewServer.process_message (.parsed (.jobj fields)) = .ok r := by
      unfold MockParaViewServer.process_message
      rw [hb]
    rw [hpm] at h
    cases h
    obtain ⟨m, rest, hr⟩ := processBody_ok_shape fields resp hb
    subst hr
    rfl
  | error e =>
    have hpm : MockParaViewServer.process_message (.parsed (.jobj fields)) =
        .ok (.jobj [("id", pyGet fields "id" (.jnum 0)),
          ("error", .jobj [("message", .jstr e)])]) := by
      unfold MockParaViewServer.process_message
      rw [hb]
    rw [hpm] at h
    cases h
    rfl

/-- Witness for C3: a request with method `foo` and no `id` is answered with
`id` equal to `null`. -/
theorem mock_echoes_request_id_witness :
    getField (.jobj [("id", JVal.null),
        ("result", .jobj [("status", .jstr "success"),
          ("message", .jstr "Mock response for foo")])]) "id" =
      some (if (getField (JVal.jobj [("id", JVal.null),
          ("result", .jobj [("status", .jstr "success"),
            ("message", .jstr "Mock response for foo")])]) "error").isSome
        then pyGet [("method", .jstr "foo")] "id" (.jnum 0)
        else pyGet [("method", .jstr "foo")] "id" .null) :=
  mock_echoes_request_id [("method", .jstr "foo")] _ rfl

/-- C7: every response the mock returns is an object with an `id` key and
exactly one of a `result` key (an object with string `status` and `message`
fields) or an `error` key (an object with a string `message` field). -/
theorem mock_response_schema_holds (msg : PyMsg) (resp : JVal)
    (h : MockParaViewServer.process_message msg = .ok resp) :
    mockResponseSchema resp = true := by
  cases msg with
  | invalid =>
    rw [show MockParaViewServer.process_message PyMsg.invalid =
      Except.error "local variable 'data' referenced before assignment" from rfl] at h
    cases h
  | parsed data =>
    cases data with
    | null =>
      rw [show MockParaViewServer.process_message (.parsed .null) =
        Except.error ("'" ++ pyRepr JVal.null ++ "' object has no attribute 'get'")
        from rfl] at h
      cases h
    | jbool b =>
      rw [show MockParaViewServer.process_message (.parsed (.jbool b)) =
        Except.error ("'" ++ pyRepr (JVal.jbool b) ++ "' object has no attribute 'get'")
        from rfl] at h
      cases h
    | jnum q =>
      rw [show MockParaViewServer.process_message (.parsed (.jnum q)) =
        Except.error ("'" ++ pyRepr (JVal.jnum q) ++ "' object has no attribute 'get'")
        from rfl] at h
      cases h
    | jstr s =>
      rw [show MockParaViewServer.process_message (.parsed (.jstr s)) =
        Except.error ("'" ++ pyRepr (JVal.jstr s) ++ "' object has no attribute 'get'")
        from rfl] at h
      cases h
    | jarr items =>
      rw [show MockParaViewServer.process_message (.parsed (.jarr items)) =
        Except.error ("'" ++ pyRepr (JVal.jarr items) ++ "' object has no attribute 'get'")
        from rfl] at h
      cases h
    | jobj fields =>
      cases hb : MockParaViewServer.processBody (.parsed (.jobj fields)) with
      | ok r =>
        have hpm : MockParaViewServer.process_message (.parsed (.jobj fields)) = .ok r := by
          unfold MockParaViewServer.process_message
          rw [hb]
        rw [hpm] at h
        cases h
        obtain ⟨m, rest, hr⟩ := processBody_ok_shape fields resp hb
        subst hr
        rfl
      | error e =>
        have hpm : MockParaViewServer.process_message (.parsed (.jobj fields)) =
            .ok (.jobj [("id", pyGet fields "id" (.jnum 0)),
              ("error", .jobj [("message", .jstr e)])]) := by
          unfold MockParaViewServer.process_message
          rw [hb]
        rw [hpm] at h
        cases h
        rfl

/-- Witness for C7: the response to a concrete `vtk.generate_contours`
request satisfies the schema. -/
theorem mock_response_schema_holds_witness :
    mockResponseSchema (.jobj [("id", .jnum 3),
      ("result", .jobj [("status", .jstr "success"),
        ("message", .jstr "Generated 5 contours"),
        ("contour_values", .jarr [.jnum 10, .jnum 20, .jnum 30, .jnum 40, .jnum 50])])]) = true :=
  mock_response_schema_holds
    (.parsed (.jobj [("method", .jstr "vtk.generate_contours"), ("id", .jnum 3)])) _ rfl

/-- C5 counterexample: two `vtk.apply_color_map` requests with the same
method and the same id but different `params.array_name` receive different
`result.message` payloads, so the mock's response for that method is not a
fixed literal. -/
theorem mock_apply_color_map_params_dependent :
    respResultMessage (MockParaViewServer.process_message (.parsed (.jobj
        [("method", .jstr "vtk.apply_color_map"), ("id", .jnum 1),
         ("params", .jobj [("array_name", .jstr "Temperature")])]))) =
        some "Applied color map to Temperature" ∧
      respResultMessage (MockParaViewServer.process_message (.parsed (.jobj
        [("method", .jstr "vtk.apply_color_map"), ("id", .jnum 1),
         ("params", .jobj [("array_name", .jstr "Pressure")])]))) =
        some "Applied color map to Pressure" ∧
      ("Applied color map to Temperature" : String) ≠ "Applied color map to Pressure" :=
  ⟨rfl, rfl, by decide⟩

/-- Helper: the mock's body answers any method other than the three
special-cased names with the generic canned success response. -/
theorem processBody_generic (m : String) (fields : List (String × JVal))
    (h1 : m ≠ "vtk.initialize") (h2 : m ≠ "vtk.apply_color_map")
    (h3 : m ≠ "vtk.generate_contours")
    (hlook : List.lookup "method" fields = some (.jstr m)) :
    MockParaViewServer.processBody (.parsed (.jobj fields)) =
      .ok (.jobj [("id", pyGet fields "id" .null),
        ("result", .jobj [("status", .jstr "success"),
          ("message", .jstr ("Mock response for " ++ m))])]) := by
  simp only [MockParaViewServer.processBody, pyGet, hlook, Option.getD_some]
  simp [JVal.eqStr, h1, h2, h3, pyStr]
  rfl

/-- C1 (amended): the real server registers exactly the four method names,
but the mock special-cases only `vtk.initialize`, `vtk.apply_color_map` and
`vtk.generate_contours`; every other method name — `vtk.export_image`
included — is answered by the catch-all branch with a generic canned success
response echoing the method name. -/
theorem rpc_surface_amended :
    VtkVisualizationProtocol.registeredMethods =
      ["vtk.initialize", "vtk.apply_color_map", "vtk.generate_contours",
        "vtk.export_image"] ∧
    ∀ (m : String) (fields : List (String × JVal)),
      m ∉ (["vtk.initialize", "vtk.apply_color_map", "vtk.generate_contours"] : List String) →
      List.lookup "method" fields = some (.jstr m) →
      MockParaViewServer.process_message (.parsed (.jobj fields)) =
        .ok (.jobj [("id", pyGet fields "id" .null),
          ("result", .jobj [("status", .jstr "success"),
            ("message", .jstr ("Mock response for " ++ m))])]) := by
  refine ⟨rfl, ?_⟩
  intro m fields hm hlook
  simp only [List.mem_cons, List.not_mem_nil, or_false, not_or] at hm
  obtain ⟨h1, h2, h3⟩ := hm
  have hb := processBody_generic m fields h1 h2 h3 hlook
  unfold MockParaViewServer.process_message
  rw [hb]

/-- Witness for C1 (amended): a `vtk.export_image` request hits the mock's
catch-all branch. -/
theorem rpc_surface_amended_witness :
    MockParaViewServer.process_message (.parsed (.jobj
        [("method", .jstr "vtk.export_image"), ("id", .jnum 4)])) =
      .ok (.jobj [("id", .jnum 4),
        ("result", .jobj [("status", .jstr "success"),
          ("message", .jstr "Mock response for vtk.export_image")])]) :=
  rpc_surface_amended.2 "vtk.export_image"
    [("method", .jstr "vtk.export_image"), ("id", .jnum 4)] (by decide) rfl

/-- C5 (amended): for `vtk.initialize` and `vtk.generate_contours` the mock's
result payload is a fixed literal independent of `params`; for
`vtk.apply_color_map` the result embeds `params.get('array_name', 'unknown')`
in its message, so two requests with that method and different `array_name`
receive different result payloads. -/
theorem mock_literal_responses (fields : List (String × JVal)) :
    (List.lookup "method" fields = some (.jstr "vtk.initialize") →
      MockParaViewServer.process_message (.parsed (.jobj fields)) =
        .ok (.jobj [("id", pyGet fields "id" .null),
          ("result", .jobj [("status", .jstr "success"),
            ("message", .jstr "Mock ParaView initialized"),
            ("data_arrays", .jarr [.jstr "Temperature", .jstr "Pressure", .jstr "Velocity"]),
            ("bounds", .jarr [.jnum (-100), .jnum 100, .jnum (-50), .jnum 50, .jnum (-75), .jnum 75]),
            ("points", .jnum 1234567),
            ("cells", .jnum 987654)])])) ∧
    (List.lookup "method" fields = some (.jstr "vtk.generate_contours") →
      MockParaViewServer.process_message (.parsed (.jobj fields)) =
        .ok (.jobj [("id", pyGet fields "id" .null),
          ("result", .jobj [("status", .jstr "success"),
            ("message", .jstr "Generated 5 contours"),
            ("contour_values", .jarr [.jnum 10, .jnum 20, .jnum 30, .jnum 40, .jnum 50])])])) ∧
    (∀ params : List (String × JVal),
      List.lookup "method" fields = some (.jstr "vtk.apply_color_map") →
      List.lookup "params" fields = some (.jobj params) →
      MockParaViewServer.process_message (.parsed (.jobj fields)) =
        .ok (.jobj [("id", pyGet fields "id" .null),
          ("result", .jobj [("status", .jstr "success"),
            ("message", .jstr ("Applied color map to " ++
              pyStr (pyGet params "array_name" (.jstr "unknown"))))])])) := by
  refine ⟨?_, ?_, ?_⟩
  · intro hlook
    have hb : MockParaViewServer.processBody (.parsed (.jobj fields)) =
        .ok (.jobj [("id", pyGet fields "id" .null),
          ("result", .jobj [("status", .jstr "success"),
            ("message", .jstr "Mock ParaView initialized"),
            ("data_arrays", .jarr [.jstr "Temperature", .jstr "Pressure", .jstr "Velocity"]),
            ("bounds", .jarr [.jnum (-100), .jnum 100, .jnum (-50), .jnum 50, .jnum (-75), .jnum 75]),
            ("points", .jnum 1234567),
            ("cells", .jnum 987654)])]) := by
      simp only [MockParaViewServer.processBody, pyGet, hlook, Option.getD_some]
      simp [JVal.eqStr]
      rfl
    unfold MockParaViewServer.process_message
    rw [hb]
  · intro hlook
    have hb : MockParaViewServer.processBody (.parsed (.jobj fields)) =
        .ok (.jobj [("id", pyGet fields "id" .null),
          ("result", .jobj [("status", .jstr "success"),
            ("message", .jstr "Generated 5 contours"),
            ("contour_values", .jarr [.jnum 10, .jnum 20, .jnum 30, .jnum 40, .jnum 50])])]) := by
      simp only [MockParaViewServer.processBody, pyGet, hlook, Option.getD_some]
      simp [JVal.eqStr]
      rfl
    unfold MockParaViewServer.process_message
    rw [hb]
  · intro params hlook hplook
    have hb : MockParaViewServer.processBody (.parsed (.jobj fields)) =
        .ok (.jobj [("id", pyGet fields "id" .null),
          ("result", .jobj [("status", .jstr "success"),
            ("message", .jstr ("Applied color map to " ++
              pyStr (pyGet params "array_name" (.jstr "unknown"))))])]) := by
      simp only [MockParaViewServer.processBody, pyGet, hlook, hplook, Option.getD_some]
      simp [JVal.eqStr]
      rfl
    unfold MockParaViewServer.process_message
    rw [hb]

/-- Witness for C5 (amended): the three conjuncts at concrete requests. -/
theorem mock_literal_responses_witness :
    MockParaViewServer.process_message (.parsed (.jobj
        [("method", .jstr "vtk.initialize"), ("id", .jnum 2)])) =
      .ok (.jobj [("id", .jnum 2),
        ("result", .jobj [("status", .jstr "success"),
          ("message", .jstr "Mock ParaView initialized"),
          ("data_arrays", .jarr [.jstr "Temperature", .jstr "Pressure", .jstr "Velocity"]),
          ("bounds", .jarr [.jnum (-100), .jnum 100, .jnum (-50), .jnum 50, .jnum (-75), .jnum 75]),
          ("points", .jnum 1234567),
          ("cells", .jnum 987654)])]) ∧
    MockParaViewServer.process_message (.parsed (.jobj
        [("method", .jstr "vtk.apply_color_map"), ("id", .jnum 2),
         ("params", .jobj [("array_name", .jstr "Velocity")])])) =
      .ok (.jobj [("id", .jnum 2),
        ("result", .jobj [("status", .jstr "success"),
          ("message", .jstr "Applied color map to Velocity")])]) :=
  ⟨(mock_literal_responses [("method", .jstr "vtk.initialize"), ("id", .jnum 2)]).1 rfl,
   (mock_literal_responses [("method", .jstr "vtk.apply_color_map"), ("id", .jnum 2),
      ("params", .jobj [("array_name", .jstr "Velocity")])]).2.2
     [("array_name", .jstr "Velocity")] rfl rfl⟩

/-- C4: each of the four registered handlers of the real server returns, for
every state, every outcome of its external library calls and every argument,
a dict with a `status` key equal to `success` or `error` and a `message`
key; no exception escapes the `try/except Exception` wrappers. -/
theorem handlers_catch_all (st : VtkVisualizationProtocol.State)
    (envI : VtkVisualizationProtocol.InitEnv) (envC : VtkVisualizationProtocol.ColorEnv)
    (envG : VtkVisualizationProtocol.ContourEnv) (envE : VtkVisualizationProtocol.ExportEnv)
    (array_name color_map_name filename : String) (num_contours : ℤ) :
    statusMessageOk (VtkVisualizationProtocol.initialize_visualization st envI).1 = true ∧
    statusMessageOk (VtkVisualizationProtocol.apply_color_map st envC array_name color_map_name) = true ∧
    statusMessageOk (VtkVisualizationProtocol.generate_contours st envG array_name num_contours).1 = true ∧
    statusMessageOk (VtkVisualizationProtocol.export_image st envE filename) = true := by
  obtain ⟨v, r, cr, cf, da⟩ := st
  refine ⟨?_, ?_, ?_, ?_⟩
  · obtain ⟨cv, fp, fc, lr, sr, di, rd⟩ := envI
    cases cv <;> cases fp <;> cases fc <;> cases lr <;> cases sr <;> cases di <;> cases rd <;>
      rfl
  · obtain ⟨cb, ctf, ap, sb, rd⟩ := envC
    cases cr <;> cases hn : array_name == "" <;> cases cb <;> cases ctf <;>
      cases hap : ap (VtkVisualizationProtocol.presetFor color_map_name) <;>
      cases sb <;> cases rd <;>
      simp [VtkVisualizationProtocol.apply_color_map,
        VtkVisualizationProtocol.applyColorMapBody, hn, hap, bind, Except.bind,
        statusMessageOk, getField, isStrField] <;> rfl
  · obtain ⟨ct, si, sh, rd⟩ := envG
    cases r <;> cases hn : array_name == "" <;> cases ct <;>
      cases hf : List.find? (fun a => a.name == array_name) da <;>
      rcases eq_or_ne (num_contours + 1) 0 with hz | hz <;>
      cases si <;> cases sh <;> cases rd <;>
      simp [VtkVisualizationProtocol.generate_contours,
        VtkVisualizationProtocol.generateContoursBody, hn, hf, hz,
        statusMessageOk, getField, isStrField] <;> rfl
  · obtain ⟨sv, ss⟩ := envE
    cases v <;> cases sv <;> cases ss <;>
      simp [VtkVisualizationProtocol.export_image,
        VtkVisualizationProtocol.exportImageBody, bind, Except.bind,
        statusMessageOk, getField, isStrField] <;> rfl

/-- C9: a `color_map_name` that is none of the eight preset keys makes
`apply_color_map` fall back to the `Cool to Warm` preset instead of failing,
and the success message still reports the caller-supplied name. -/
theorem apply_color_map_fallback (st : VtkVisualizationProtocol.State)
    (env : VtkVisualizationProtocol.ColorEnv) (array_name color_map_name : String)
    (hpreset : color_map_name ∉ VtkVisualizationProtocol.color_map_presets.map Prod.fst)
    (hrep : st.current_representation = true) (hname : array_name ≠ "")
    (hcb : env.color_by = .ok ()) (hctf : env.get_color_tf = .ok ())
    (hap : env.apply_preset "Cool to Warm" = .ok ())
    (hsb : env.scalar_bar = .ok ()) (hrd : env.render = .ok ()) :
    VtkVisualizationProtocol.presetFor color_map_name = "Cool to Warm" ∧
    VtkVisualizationProtocol.apply_color_map st env array_name color_map_name =
      .jobj [("status", .jstr "success"),
        ("message", .jstr ("Applied " ++ color_map_name ++ " color map to " ++ array_name))] := by
  have hnone : List.lookup color_map_name VtkVisualizationProtocol.color_map_presets = none := by
    rw [List.lookup_eq_none_iff]
    intro p hp
    simp only [VtkVisualizationProtocol.color_map_presets, List.map_cons, List.map_nil,
      List.mem_cons, List.not_mem_nil, or_false, not_or] at hpreset
    simp only [VtkVisualizationProtocol.color_map_presets, List.mem_cons,
      List.not_mem_nil, or_false] at hp
    rcases hp with rfl | rfl | rfl | rfl | rfl | rfl | rfl | rfl <;>
      simp [bne_iff_ne] <;> tauto
  have hp1 : VtkVisualizationProtocol.presetFor color_map_name = "Cool to Warm" := by
    simp [VtkVisualizationProtocol.presetFor, hnone]
  refine ⟨hp1, ?_⟩
  simp [VtkVisualizationProtocol.apply_color_map,
    VtkVisualizationProtocol.applyColorMapBody, hrep, hname, hp1,
    hcb, hctf, hap, hsb, hrd, bind, Except.bind]

/-- Witness for C9: the unrecognized name `Sunset` falls back to
`Cool to Warm` while the message reports `Sunset`. -/
theorem apply_color_map_fallback_witness :
    ("Sunset" ∉ VtkVisualizationProtocol.color_map_presets.map Prod.fst) ∧
    VtkVisualizationProtocol.presetFor "Sunset" = "Cool to Warm" ∧
    VtkVisualizationProtocol.apply_color_map ⟨true, true, true, false, []⟩
        ⟨.ok (), .ok (), fun _ => .ok (), .ok (), .ok ()⟩ "Temperature" "Sunset" =
      .jobj [("status", .jstr "success"),
        ("message", .jstr ("Applied " ++ "Sunset" ++ " color map to " ++ "Temperature"))] :=
  ⟨by decide,
   (apply_color_map_fallback ⟨true, true, true, false, []⟩
      ⟨.ok (), .ok (), fun _ => .ok (), .ok (), .ok ()⟩ "Temperature" "Sunset"
      (by decide) rfl (by decide) rfl rfl rfl rfl rfl).1,
   (apply_color_map_fallback ⟨true, true, true, false, []⟩
      ⟨.ok (), .ok (), fun _ => .ok (), .ok (), .ok ()⟩ "Temperature" "Sunset"
      (by decide) rfl (by decide) rfl rfl rfl rfl rfl).2⟩

end VtuVtk
